import Mathlib

/-!
# Verification of the TaskPoint intents API

Shallow embedding of `src/api.py` (the intent dispatch core of the
TaskPoint chat service): the intent schema, the classifier's decode
fallback, the authorization policy, the query dispatcher and its four
handlers, and the `/chat` pipeline.

Modelling conventions:
* Python `Optional[T]` becomes `Option T`; Python truthiness of an
  optional string (`if not user.pessoa_id`, `if intent.date`) is modelled
  by `truthy`, which is false for `none` and for `some ""`.
* `HTTPException(status_code, detail)` becomes the `HttpError` structure;
  a function that may raise returns `Except HttpError α`.
* The SQL store is the external collaborator of spec §6
  (`run(query_text) -> rows`).  Each handler returns, next to its
  `Except` result, the list of SQL query texts it actually executed, so
  that "no query executes" is a provable statement.  The two queries
  whose *result* matters to the spec (bank-of-hours ordering, next
  vacation `TOP 1 ... ORDER BY`) are executed relationally over tables
  held in `Db`; the absence and schedule queries, whose row contents no
  claim constrains, are answered by opaque functions of the query text.
* SQL dates are modelled as `Nat` day numbers; `GETDATE()` is the field
  `Db.today`; `datetime.today().weekday()` is `Db.todayWeekday`.
* Python's `uuid.UUID` parse success (in `validate_guid`) is the opaque
  predicate `Db.guidOk`.
* `json.loads` is Python's standard library, external to the repository:
  it is a parameter `parse : String → Except String Json` producing a
  `Json` tree; pydantic validation of `IntentDto(**data)` is modelled
  concretely by `validateIntentDto`.
-/

/-- Scope of an intent: `employee_scope` literal `"SELF" | "ONE" | "ALL"`. -/
inductive Scope where
  | SELF
  | ONE
  | ALL
deriving DecidableEq, Repr

/-- The five intent tags of `IntentDto.intent` (a pydantic `Literal`). -/
inductive IntentTag where
  | GET_EMPLOYEE_BANK_HOURS
  | GET_NEXT_VACATION_PERIOD
  | GET_ABSENT_EMPLOYEES
  | GET_EMPLOYEE_TODAY_SCHEDULE
  | UNKNOWN
deriving DecidableEq, Repr

/-- `Period.type` literal `"DAY" | "RANGE" | "MONTH"`. -/
inductive PeriodType where
  | DAY
  | RANGE
  | MONTH
deriving DecidableEq, Repr

/-- The `Period` pydantic model of `src/api.py`. -/
structure Period where
  type : Option PeriodType := none
  from_date : Option String := none
  to_date : Option String := none
deriving DecidableEq, Repr

/-- The `IntentDto` pydantic model of `src/api.py`. -/
structure IntentDto where
  intent : IntentTag
  employee_scope : Option Scope := none
  target_employee_name : Option String := none
  date : Option String := none
  period : Option Period := none
deriving DecidableEq, Repr

/-- The `UserRole` constants.  `AuthenticatedUser.role` is a plain string
in the source, so roles are strings here as well.  (The spec calls
`RH_ADMIN` "HR_ADMIN"; the code literal is `"RH_ADMIN"`.) -/
def UserRole.EMPLOYEE : String := "EMPLOYEE"

def UserRole.RH_ADMIN : String := "RH_ADMIN"

def UserRole.MANAGER : String := "MANAGER"

/-- The `AuthenticatedUser` pydantic model. -/
structure AuthenticatedUser where
  pessoa_id : Option String
  name : String
  role : String
deriving DecidableEq, Repr

/-- `fastapi.HTTPException(status_code=..., detail=...)`. -/
structure HttpError where
  status_code : Nat
  detail : String
deriving DecidableEq, Repr

/-- Python truthiness of an optional string: `None` and `""` are falsy. -/
def truthy : Option String → Bool
  | none => false
  | some s => !s.isEmpty

/-- The `QuestionRequest` pydantic model (body of `POST /chat`). -/
structure QuestionRequest where
  question : String
  user_id : Option String := none
  role : Option String := some UserRole.EMPLOYEE
  name : Option String := some "Usuário Teste"
deriving DecidableEq, Repr

-- ============================================
-- Authorization policy: `ensure_authorization`
-- ============================================

/-- `ensure_authorization(user, intent)` from `src/api.py`: returns
normally or raises 403/400.  Note the Python comparison
`intent.employee_scope != "SELF"` is true when the scope is `None`,
modelled by `≠ some Scope.SELF`. -/
def ensure_authorization (user : AuthenticatedUser) (intent : IntentDto) :
    Except HttpError Unit :=
  if intent.intent = IntentTag.GET_EMPLOYEE_BANK_HOURS then
    if user.role = UserRole.EMPLOYEE ∧ intent.employee_scope ≠ some Scope.SELF then
      Except.error ⟨403, "Você só pode consultar o seu próprio banco de horas."⟩
    else
      Except.ok ()
  else if intent.intent = IntentTag.GET_NEXT_VACATION_PERIOD then
    if user.role = UserRole.EMPLOYEE ∧ intent.employee_scope ≠ some Scope.SELF then
      Except.error ⟨403, "Você só pode consultar as suas próprias férias."⟩
    else
      Except.ok ()
  else if intent.intent = IntentTag.GET_ABSENT_EMPLOYEES then
    if user.role ≠ UserRole.RH_ADMIN ∧ user.role ≠ UserRole.MANAGER then
      Except.error ⟨403, "Você não tem permissão para consultar faltas de funcionários."⟩
    else
      Except.ok ()
  else if intent.intent = IntentTag.UNKNOWN then
    Except.error ⟨400, "Não entendi sua pergunta ou ela ainda não é suportada."⟩
  else
    Except.ok ()

-- ============================================
-- Classifier decode: `json.loads` + pydantic validation
-- ============================================

/-- A JSON value as produced by Python's `json.loads` (object keys are
unique in a Python dict, so `obj` is an association list). -/
inductive Json where
  | null
  | bool (b : Bool)
  | num (n : Int)
  | str (s : String)
  | arr (xs : List Json)
  | obj (fields : List (String × Json))

/-- Look up a key in a JSON object's fields. -/
def Json.getField (fields : List (String × Json)) (k : String) : Option Json :=
  (fields.find? (fun p => p.1 = k)).map (fun p => p.2)

/-- Decode the `intent` literal; any other string is a validation error
(pydantic rejects a tag outside the `Literal`). -/
def intentTagOfString : String → Except String IntentTag
  | "GET_EMPLOYEE_BANK_HOURS" => Except.ok IntentTag.GET_EMPLOYEE_BANK_HOURS
  | "GET_NEXT_VACATION_PERIOD" => Except.ok IntentTag.GET_NEXT_VACATION_PERIOD
  | "GET_ABSENT_EMPLOYEES" => Except.ok IntentTag.GET_ABSENT_EMPLOYEES
  | "GET_EMPLOYEE_TODAY_SCHEDULE" => Except.ok IntentTag.GET_EMPLOYEE_TODAY_SCHEDULE
  | "UNKNOWN" => Except.ok IntentTag.UNKNOWN
  | _ => Except.error "intent: not a known literal"

/-- Decode the `employee_scope` literal. -/
def scopeOfString : String → Except String Scope
  | "SELF" => Except.ok Scope.SELF
  | "ONE" => Except.ok Scope.ONE
  | "ALL" => Except.ok Scope.ALL
  | _ => Except.error "employee_scope: not a known literal"

/-- Decode the `Period.type` literal. -/
def periodTypeOfString : String → Except String PeriodType
  | "DAY" => Except.ok PeriodType.DAY
  | "RANGE" => Except.ok PeriodType.RANGE
  | "MONTH" => Except.ok PeriodType.MONTH
  | _ => Except.error "period.type: not a known literal"

/-- An optional string field: missing or `null` gives `none`; a JSON
string gives `some`; anything else fails validation. -/
def optStrField (fields : List (String × Json)) (k : String) :
    Except String (Option String) :=
  match Json.getField fields k with
  | none => Except.ok none
  | some Json.null => Except.ok none
  | some (Json.str s) => Except.ok (some s)
  | some _ => Except.error (k ++ ": not a string")

/-- Validate a JSON value against the `Period` model. -/
def validatePeriod (j : Json) : Except String Period :=
  match j with
  | Json.obj fields =>
    match Json.getField fields "type" with
    | none => do
      let fd ← optStrField fields "from_date"
      let td ← optStrField fields "to_date"
      Except.ok { type := none, from_date := fd, to_date := td }
    | some Json.null => do
      let fd ← optStrField fields "from_date"
      let td ← optStrField fields "to_date"
      Except.ok { type := none, from_date := fd, to_date := td }
    | some (Json.str s) => do
      let t ← periodTypeOfString s
      let fd ← optStrField fields "from_date"
      let td ← optStrField fields "to_date"
      Except.ok { type := some t, from_date := fd, to_date := td }
    | some _ => Except.error "period.type: not a string"
  | _ => Except.error "period: not an object"

/-- Validate a JSON value against the `IntentDto` model, mirroring
`IntentDto(**data)`: top level must be an object; `intent` is a required
literal; the four payload fields are optional; extra keys are ignored
(pydantic's default); a wrong-typed field raises, which the caller's
`except` turns into the fallback. -/
def validateIntentDto (j : Json) : Except String IntentDto :=
  match j with
  | Json.obj fields => do
    let tagJson ←
      match Json.getField fields "intent" with
      | some (Json.str s) => Except.ok s
      | some _ => Except.error "intent: not a string"
      | none => Except.error "intent: field required"
    let tag ← intentTagOfString tagJson
    let scope ←
      match Json.getField fields "employee_scope" with
      | none => Except.ok none
      | some Json.null => Except.ok none
      | some (Json.str s) => do
        let sc ← scopeOfString s
        Except.ok (some sc)
      | some _ => Except.error "employee_scope: not a string"
    let name ← optStrField fields "target_employee_name"
    let date ← optStrField fields "date"
    let period ←
      match Json.getField fields "period" with
      | none => Except.ok none
      | some Json.null => Except.ok none
      | some pj => do
        let p ← validatePeriod pj
        Except.ok (some p)
    Except.ok { intent := tag, employee_scope := scope,
                target_employee_name := name, date := date, period := period }
  | _ => Except.error "IntentDto: not an object"

/-- `IntentDto(intent="UNKNOWN")`: the fallback value built inside the
`except` branch of `classify_intent` — every optional field defaults to
`None`. -/
def unknownIntentDto : IntentDto :=
  { intent := IntentTag.UNKNOWN }

/-- The decode step of `classify_intent`: `json.loads` (the external
`parse` collaborator) followed by `IntentDto(**data)`. -/
def decodeIntent (parse : String → Except String Json) (content : String) :
    Except String IntentDto :=
  match parse content with
  | Except.error e => Except.error e
  | Except.ok j => validateIntentDto j

/-- `classify_intent` from `src/api.py`, applied to the oracle's raw
output `content` (the prompt construction and the LLM call itself are
the external oracle).  The `try/except` catches every decode failure and
substitutes `IntentDto(intent="UNKNOWN")`; the function is total, so no
exception crosses its boundary. -/
def classify_intent (parse : String → Except String Json) (content : String) :
    IntentDto :=
  match decodeIntent parse content with
  | Except.ok intent => intent
  | Except.error _ => unknownIntentDto

-- ============================================
-- Store model and query texts
-- ============================================

/-- A row of `[dbo].[Pessoa]` as used by the name lookup. -/
structure Pessoa where
  id : String
  nome : String
deriving DecidableEq, Repr

/-- A row of the bank-of-hours query's `FROM` clause: `BancoHoras b`
`LEFT JOIN RegistroBancoHoras rb` `JOIN Pessoa p`, projected on the
selected columns.  The `rb.*` columns are nullable because of the
`LEFT JOIN`. -/
structure BankRow where
  pessoaId : String
  nome : String
  saldo : Int
  dataCriacao : Nat
  dataAtualizacao : Nat
  dataRegistro : Option Nat
  tipoRegistro : Option String
  quantidadeHoras : Option Int
  descricao : Option String
deriving DecidableEq, Repr

/-- A row of `[dbo].[Ferias] f JOIN [dbo].[Pessoa] p`, projected on the
columns selected by the next-vacation query. -/
structure FeriasRow where
  pessoaId : String
  nome : String
  dataInicio : Nat
  dataFim : Nat
  diasConcedidos : Nat
  status : String
  foiFracionada : Bool
  numeroParcelas : Option Nat
  observacoes : Option String
deriving DecidableEq, Repr

/-- A row returned by the absent-employees query (contents opaque to the
claims). -/
structure AbsentRow where
  pessoaId : String
  nome : String
  matricula : String
  dataAdmissao : Option Nat
  dataDesligamento : Option Nat
deriving DecidableEq, Repr

/-- A row returned by the today-schedule query (contents opaque to the
claims). -/
structure ScheduleRow where
  jornada : String
  diasSemana : Nat
  horarioInicio : String
  horarioFim : String
  intervaloInicio : Option String
  intervaloFim : Option String
deriving DecidableEq, Repr

/-- The external environment of one request: the data-store tables read
by the queries whose results the spec constrains, opaque executors for
the two queries whose results it does not, the clock, and the
`uuid.UUID` well-formedness oracle. -/
structure Db where
  pessoas : List Pessoa
  bancoRows : List BankRow
  feriasRows : List FeriasRow
  runAbsent : String → List AbsentRow
  runSchedule : String → List ScheduleRow
  today : Nat
  todayWeekday : Nat
  guidOk : String → Bool

/-- What a handler hands back to `execute_intent` / `chat`.  The first
three handlers return the store's row sequence; the today-schedule
handler returns the dict `{"sql": sql, "rows": rows}`. -/
inductive RawResult where
  | bankRows (rows : List BankRow)
  | feriasRows (rows : List FeriasRow)
  | absentRows (rows : List AbsentRow)
  | scheduleResult (sql : String) (rows : List ScheduleRow)
deriving DecidableEq, Repr

/-- Python `nome.replace("'", "''")`: every single-quote character is
doubled (single-character pattern, so occurrences are independent). -/
def escapeQuotes (s : String) : String :=
  ⟨s.data.foldr (fun c acc => if c = '\'' then '\'' :: '\'' :: acc else c :: acc) []⟩

/-- The SQL text built by `lookup_pessoa_id_by_name`: single quotes in
the name are doubled before interpolation. -/
def lookupSql (nome : String) : String :=
  "\n        SELECT TOP 1 [Id]\n        FROM [dbo].[Pessoa]\n        WHERE [Nome] = '"
    ++ escapeQuotes nome
    ++ "'\n    "

/-- The SQL text built by `handle_get_employee_bank_hours`. -/
def bankSql (pid : String) : String :=
  "\n        SELECT\n            b.[PessoaId],\n            p.[Nome],\n            b.[Saldo],\n            b.[DataCriacao],\n            b.[DataAtualizacao],\n            rb.[DataRegistro],\n            rb.[TipoRegistro],\n            rb.[QuantidadeHoras],\n            rb.[Descricao]\n        FROM [dbo].[BancoHoras] b\n        LEFT JOIN [dbo].[RegistroBancoHoras] rb\n            ON rb.[BancoHorasId] = b.[Id]\n        JOIN [dbo].[Pessoa] p\n            ON p.[Id] = b.[PessoaId]\n        WHERE b.[PessoaId] = CONVERT(uniqueidentifier, '"
    ++ pid
    ++ "')\n        ORDER BY rb.[DataRegistro] DESC, b.[DataAtualizacao] DESC, b.[DataCriacao] DESC;\n    "

/-- The SQL text built by `handle_get_next_vacation_period`. -/
def nextVacationSql (pid : String) : String :=
  "\n        SELECT TOP 1\n            f.[PessoaId],\n            p.[Nome],\n            f.[DataInicio],\n            f.[DataFim],\n            f.[DiasConcedidos],\n            f.[Status],\n            f.[FoiFracionada],\n            f.[NumeroParcelas],\n            f.[Observacoes]\n        FROM [dbo].[Ferias] f\n        JOIN [dbo].[Pessoa] p ON p.[Id] = f.[PessoaId]\n        WHERE f.[PessoaId] = CONVERT(uniqueidentifier, '"
    ++ pid
    ++ "')\n          AND CONVERT(date, f.[DataInicio]) >= CONVERT(date, GETDATE())\n        ORDER BY f.[DataInicio] ASC;\n    "

/-- The `date_sql` fragment of `handle_get_absent_employees`: a truthy
`intent.date` is embedded verbatim (no escaping, no format check);
otherwise `GETDATE()` is used. -/
def dateSqlOf (date : Option String) : String :=
  if truthy date then "CONVERT(date, '" ++ date.getD "" ++ "')"
  else "CONVERT(date, GETDATE())"

/-- The SQL text built by `handle_get_absent_employees`; `date_sql`
appears twice. -/
def absentSql (date : Option String) : String :=
  "\n        SELECT\n            p.[Id]          AS PessoaId,\n            p.[Nome],\n            p.[Matricula],\n            vt.[DataAdmissao],\n            vt.[DataDesligamento]\n        FROM [dbo].[Pessoa] p\n        JOIN [dbo].[VinculoTrabalho] vt\n            ON vt.[PessoaId] = p.[Id]\n        WHERE\n            (vt.[Ativo] = 1 OR vt.[Ativo] IS NULL)\n            AND (vt.[DataDesligamento] IS NULL OR CONVERT(date, vt.[DataDesligamento]) >= "
    ++ dateSqlOf date
    ++ ")\n            AND NOT EXISTS (\n                SELECT 1\n                FROM [dbo].[SomaHorasPeriodo] shp\n                WHERE shp.[PessoaId] = p.[Id]\n                  AND CONVERT(date, shp.[DataHoraRegistro]) = "
    ++ dateSqlOf date
    ++ "\n            );\n    "

/-- The SQL text built by `handle_get_employee_today_schedule`. -/
def todaySql (pid : String) (weekday : Nat) : String :=
  "\n        SELECT \n            jt.Descricao AS Jornada,\n            jd.DiasSemana,\n            jd.HorarioInicio,\n            jd.HorarioFim,\n            jd.IntervaloInicio,\n            jd.IntervaloFim\n        FROM Pessoa p\n        INNER JOIN JornadaTrabalho jt ON p.JornadaTrabalhoId = jt.Id\n        INNER JOIN JornadaDias jd ON jd.JornadaTrabalhoId = jt.Id\n        WHERE p.Id = CONVERT(uniqueidentifier, '"
    ++ pid
    ++ "')\n          AND jd.DiasSemana = "
    ++ toString weekday
    ++ "\n    "

-- ============================================
-- Query execution over the store tables
-- ============================================

/-- Rank of a nullable sort key under SQL Server `DESC` ordering:
`NULL` sorts after every value in a descending order, i.e. it is the
least element. -/
def optRank : Option Nat → Nat
  | none => 0
  | some n => n + 1

/-- `a` may precede `b` in the bank-of-hours result: the `ORDER BY`
`rb.[DataRegistro] DESC, b.[DataAtualizacao] DESC, b.[DataCriacao] DESC`
read as a lexicographic total preorder. -/
def bankBefore (a b : BankRow) : Prop :=
  optRank b.dataRegistro < optRank a.dataRegistro ∨
    (optRank b.dataRegistro = optRank a.dataRegistro ∧
      (b.dataAtualizacao < a.dataAtualizacao ∨
        (b.dataAtualizacao = a.dataAtualizacao ∧ b.dataCriacao ≤ a.dataCriacao)))

instance : DecidableRel bankBefore := fun a b => by
  unfold bankBefore
  infer_instance

instance : IsTotal BankRow bankBefore :=
  ⟨by
    intro a b
    unfold bankBefore
    omega⟩

instance : IsTrans BankRow bankBefore :=
  ⟨by
    intro a b c
    unfold bankBefore
    omega⟩

/-- `a` may precede `b` under `ORDER BY f.[DataInicio] ASC`. -/
def feriasBefore (a b : FeriasRow) : Prop :=
  a.dataInicio ≤ b.dataInicio

instance : DecidableRel feriasBefore := fun a b => by
  unfold feriasBefore
  infer_instance

instance : IsTotal FeriasRow feriasBefore :=
  ⟨by
    intro a b
    unfold feriasBefore
    omega⟩

instance : IsTrans FeriasRow feriasBefore :=
  ⟨by
    intro a b c
    unfold feriasBefore
    omega⟩

/-- Relational execution of the bank-of-hours query: the rows of the
joined relation with the requested `PessoaId`, ordered by the query's
`ORDER BY` key. -/
def bankQueryRows (db : Db) (pid : String) : List BankRow :=
  List.insertionSort bankBefore (db.bancoRows.filter (fun r => r.pessoaId == pid))

/-- The candidate set of the next-vacation query: the subject's vacation
periods whose start date is today or later (`WHERE` clause). -/
def vacationCandidates (db : Db) (pid : String) : List FeriasRow :=
  db.feriasRows.filter (fun f => f.pessoaId == pid && decide (db.today ≤ f.dataInicio))

/-- Relational execution of the next-vacation query:
`SELECT TOP 1 ... ORDER BY f.[DataInicio] ASC`. -/
def vacationQueryRows (db : Db) (pid : String) : List FeriasRow :=
  (List.insertionSort feriasBefore (vacationCandidates db pid)).take 1

-- ============================================
-- Dispatcher handlers
-- ============================================

/-- `validate_guid` from `src/api.py`: `None` passes through; a present
value must parse as a `uuid.UUID` or a 400 is raised. -/
def validate_guid (db : Db) (value : Option String) : Except HttpError (Option String) :=
  match value with
  | none => Except.ok none
  | some s =>
    if db.guidOk s then Except.ok (some s)
    else Except.error ⟨400, "user_id não é um GUID válido."⟩

/-- `lookup_pessoa_id_by_name`: one `SELECT TOP 1` against `Pessoa` with
an exact (`=`) match on `[Nome]`; 404 when no row comes back. -/
def lookup_pessoa_id_by_name (db : Db) (nome : String) :
    Except HttpError String × List String :=
  let sql := lookupSql nome
  match db.pessoas.find? (fun p => p.nome == nome) with
  | none => (Except.error ⟨404, "Pessoa não encontrada."⟩, [sql])
  | some p => (Except.ok p.id, [sql])

/-- Tail of `handle_get_employee_bank_hours` once the subject is
resolved: `validate_guid(pessoa_id)` then run the query. -/
def bankQueryStep (db : Db) (pid : String) : Except HttpError RawResult × List String :=
  match validate_guid db (some pid) with
  | Except.error e => (Except.error e, [])
  | Except.ok _ => (Except.ok (RawResult.bankRows (bankQueryRows db pid)), [bankSql pid])

/-- `handle_get_employee_bank_hours`: resolve the subject (`SELF` needs
a truthy `pessoa_id`; `ONE` needs a truthy `target_employee_name` and a
successful lookup; anything else is an invalid scope), validate the
GUID, run the query. -/
def handle_get_employee_bank_hours (db : Db) (intent : IntentDto)
    (user : AuthenticatedUser) : Except HttpError RawResult × List String :=
  if intent.employee_scope = some Scope.SELF then
    if truthy user.pessoa_id then
      bankQueryStep db (user.pessoa_id.getD "")
    else
      (Except.error ⟨400, "user_id (pessoa_id) é obrigatório para SELF."⟩, [])
  else if intent.employee_scope = some Scope.ONE ∧ truthy intent.target_employee_name then
    match lookup_pessoa_id_by_name db (intent.target_employee_name.getD "") with
    | (Except.ok pid, log) =>
      let step := bankQueryStep db pid
      (step.1, log ++ step.2)
    | (Except.error e, log) => (Except.error e, log)
  else
    (Except.error ⟨400, "Escopo de funcionário inválido para banco de horas."⟩, [])

/-- Tail of `handle_get_next_vacation_period` once the subject is
resolved. -/
def vacationQueryStep (db : Db) (pid : String) : Except HttpError RawResult × List String :=
  match validate_guid db (some pid) with
  | Except.error e => (Except.error e, [])
  | Except.ok _ =>
    (Except.ok (RawResult.feriasRows (vacationQueryRows db pid)), [nextVacationSql pid])

/-- `handle_get_next_vacation_period`: same subject resolution as the
bank-of-hours handler, then the `TOP 1 ... ORDER BY DataInicio ASC`
query. -/
def handle_get_next_vacation_period (db : Db) (intent : IntentDto)
    (user : AuthenticatedUser) : Except HttpError RawResult × List String :=
  if intent.employee_scope = some Scope.SELF then
    if truthy user.pessoa_id then
      vacationQueryStep db (user.pessoa_id.getD "")
    else
      (Except.error ⟨400, "user_id (pessoa_id) é obrigatório para SELF."⟩, [])
  else if intent.employee_scope = some Scope.ONE ∧ truthy intent.target_employee_name then
    match lookup_pessoa_id_by_name db (intent.target_employee_name.getD "") with
    | (Except.ok pid, log) =>
      let step := vacationQueryStep db pid
      (step.1, log ++ step.2)
    | (Except.error e, log) => (Except.error e, log)
  else
    (Except.error ⟨400, "Escopo de funcionário inválido para férias."⟩, [])

/-- `handle_get_absent_employees`: build the date fragment from a truthy
`intent.date` (else `GETDATE()`), run the set-difference query. -/
def handle_get_absent_employees (db : Db) (intent : IntentDto)
    (user : AuthenticatedUser) : Except HttpError RawResult × List String :=
  let sql := absentSql intent.date
  (Except.ok (RawResult.absentRows (db.runAbsent sql)), [sql])

/-- `handle_get_employee_today_schedule`: requires a truthy
`user.pessoa_id` (400 otherwise, before any query), then runs the
weekday-join query and returns the dict `{"sql": sql, "rows": rows}`. -/
def handle_get_employee_today_schedule (db : Db) (intent : IntentDto)
    (user : AuthenticatedUser) : Except HttpError RawResult × List String :=
  if truthy user.pessoa_id then
    let sql := todaySql (user.pessoa_id.getD "") db.todayWeekday
    (Except.ok (RawResult.scheduleResult sql (db.runSchedule sql)), [sql])
  else
    (Except.error ⟨400, "Usuário autenticado não possui PessoaId associado."⟩, [])

/-- `execute_intent`: authorization first, then exactly one handler per
tag.  The trailing 400 `"Intent não suportado."` of the source is the
`UNKNOWN` arm here; it is unreachable because authorization already
rejects `UNKNOWN`. -/
def execute_intent (db : Db) (intent : IntentDto) (user : AuthenticatedUser) :
    Except HttpError RawResult × List String :=
  match ensure_authorization user intent with
  | Except.error e => (Except.error e, [])
  | Except.ok _ =>
    match intent.intent with
    | IntentTag.GET_EMPLOYEE_BANK_HOURS => handle_get_employee_bank_hours db intent user
    | IntentTag.GET_NEXT_VACATION_PERIOD => handle_get_next_vacation_period db intent user
    | IntentTag.GET_ABSENT_EMPLOYEES => handle_get_absent_employees db intent user
    | IntentTag.GET_EMPLOYEE_TODAY_SCHEDULE => handle_get_employee_today_schedule db intent user
    | IntentTag.UNKNOWN => (Except.error ⟨400, "Intent não suportado."⟩, [])

-- ============================================
-- The `/chat` endpoint
-- ============================================

/-- The `ChatResponse` model: `params` is the intent serialized back to
a dict, kept here as the `IntentDto` itself. -/
structure ChatResponse where
  intent : IntentTag
  params : IntentDto
  raw_result : RawResult
  natural_response : String
deriving DecidableEq, Repr

/-- Python `str.strip()` on the character list: drop leading and
trailing whitespace. -/
def stripChars (l : List Char) : List Char :=
  ((l.dropWhile Char.isWhitespace).reverse.dropWhile Char.isWhitespace).reverse

/-- Python `str.strip()`. -/
def strip (s : String) : String :=
  ⟨stripChars s.data⟩

-- ============================================
-- Response renderer: `build_natural_response`
-- ============================================

/-- JSON escaping of one character as by Python's `json.dumps`
(backslash, quote, newline, tab, carriage return; other characters of
the texts in play need no escape). -/
def jsonEscapeChar (c : Char) : List Char :=
  if c = '\\' then ['\\', '\\']
  else if c = '"' then ['\\', '"']
  else if c = '\n' then ['\\', 'n']
  else if c = '\t' then ['\\', 't']
  else if c = '\r' then ['\\', 'r']
  else [c]

/-- JSON escaping of a string's characters. -/
def jsonEscape (s : String) : String :=
  ⟨s.data.foldr (fun c acc => jsonEscapeChar c ++ acc) []⟩

/-- A JSON string literal: quoted, escaped. -/
def jsonStr (s : String) : String :=
  "\"" ++ jsonEscape s ++ "\""

/-- A nullable JSON string. -/
def jsonOptStr : Option String → String
  | none => "null"
  | some s => jsonStr s

/-- A nullable JSON number (modelled dates are numbers). -/
def jsonOptNat : Option Nat → String
  | none => "null"
  | some n => toString n

/-- A nullable JSON integer. -/
def jsonOptInt : Option Int → String
  | none => "null"
  | some n => toString n

/-- A JSON boolean. -/
def jsonBool : Bool → String
  | true => "true"
  | false => "false"

/-- Comma-separated serialization of a row list. -/
def dumpListAux {α : Type} (f : α → String) : List α → String
  | [] => ""
  | [x] => f x
  | x :: xs => f x ++ ", " ++ dumpListAux f xs

/-- A JSON array of rows. -/
def dumpList {α : Type} (f : α → String) (l : List α) : String :=
  "[" ++ dumpListAux f l ++ "]"

/-- `json.dumps` of one bank-of-hours row (keys are the query's selected
columns). -/
def dumpBankRow (r : BankRow) : String :=
  "\x7b\"PessoaId\": " ++ jsonStr r.pessoaId
    ++ ", \"Nome\": " ++ jsonStr r.nome
    ++ ", \"Saldo\": " ++ toString r.saldo
    ++ ", \"DataCriacao\": " ++ toString r.dataCriacao
    ++ ", \"DataAtualizacao\": " ++ toString r.dataAtualizacao
    ++ ", \"DataRegistro\": " ++ jsonOptNat r.dataRegistro
    ++ ", \"TipoRegistro\": " ++ jsonOptStr r.tipoRegistro
    ++ ", \"QuantidadeHoras\": " ++ jsonOptInt r.quantidadeHoras
    ++ ", \"Descricao\": " ++ jsonOptStr r.descricao ++ "\x7d"

/-- `json.dumps` of one vacation row. -/
def dumpFeriasRow (r : FeriasRow) : String :=
  "\x7b\"PessoaId\": " ++ jsonStr r.pessoaId
    ++ ", \"Nome\": " ++ jsonStr r.nome
    ++ ", \"DataInicio\": " ++ toString r.dataInicio
    ++ ", \"DataFim\": " ++ toString r.dataFim
    ++ ", \"DiasConcedidos\": " ++ toString r.diasConcedidos
    ++ ", \"Status\": " ++ jsonStr r.status
    ++ ", \"FoiFracionada\": " ++ jsonBool r.foiFracionada
    ++ ", \"NumeroParcelas\": " ++ jsonOptNat r.numeroParcelas
    ++ ", \"Observacoes\": " ++ jsonOptStr r.observacoes ++ "\x7d"

/-- `json.dumps` of one absence row. -/
def dumpAbsentRow (r : AbsentRow) : String :=
  "\x7b\"PessoaId\": " ++ jsonStr r.pessoaId
    ++ ", \"Nome\": " ++ jsonStr r.nome
    ++ ", \"Matricula\": " ++ jsonStr r.matricula
    ++ ", \"DataAdmissao\": " ++ jsonOptNat r.dataAdmissao
    ++ ", \"DataDesligamento\": " ++ jsonOptNat r.dataDesligamento ++ "\x7d"

/-- `json.dumps` of one schedule row. -/
def dumpScheduleRow (r : ScheduleRow) : String :=
  "\x7b\"Jornada\": " ++ jsonStr r.jornada
    ++ ", \"DiasSemana\": " ++ toString r.diasSemana
    ++ ", \"HorarioInicio\": " ++ jsonStr r.horarioInicio
    ++ ", \"HorarioFim\": " ++ jsonStr r.horarioFim
    ++ ", \"IntervaloInicio\": " ++ jsonOptStr r.intervaloInicio
    ++ ", \"IntervaloFim\": " ++ jsonOptStr r.intervaloFim ++ "\x7d"

/-- `json.dumps(raw_result, default=str)` applied to a handler's return
value: the first three handlers give a JSON array of row objects; the
today-schedule handler's dict serializes with its keys in insertion
order, `sql` first, `rows` second — so the full SQL text appears,
JSON-escaped, inside the serialized result handed to the renderer. -/
def dumpRawResult : RawResult → String
  | RawResult.bankRows rows => dumpList dumpBankRow rows
  | RawResult.feriasRows rows => dumpList dumpFeriasRow rows
  | RawResult.absentRows rows => dumpList dumpAbsentRow rows
  | RawResult.scheduleResult sql rows =>
    "\x7b\"sql\": " ++ jsonStr sql ++ ", \"rows\": "
      ++ dumpList dumpScheduleRow rows ++ "\x7d"

/-- The literal text of each intent tag (`intent.intent` in the
prompt). -/
def intentName : IntentTag → String
  | IntentTag.GET_EMPLOYEE_BANK_HOURS => "GET_EMPLOYEE_BANK_HOURS"
  | IntentTag.GET_NEXT_VACATION_PERIOD => "GET_NEXT_VACATION_PERIOD"
  | IntentTag.GET_ABSENT_EMPLOYEES => "GET_ABSENT_EMPLOYEES"
  | IntentTag.GET_EMPLOYEE_TODAY_SCHEDULE => "GET_EMPLOYEE_TODAY_SCHEDULE"
  | IntentTag.UNKNOWN => "UNKNOWN"

/-- The literal text of a scope value. -/
def scopeName : Scope → String
  | Scope.SELF => "SELF"
  | Scope.ONE => "ONE"
  | Scope.ALL => "ALL"

/-- The literal text of a period type. -/
def periodTypeName : PeriodType → String
  | PeriodType.DAY => "DAY"
  | PeriodType.RANGE => "RANGE"
  | PeriodType.MONTH => "MONTH"

/-- Serialization of the optional period sub-record. -/
def jsonOptPeriod : Option Period → String
  | none => "null"
  | some p =>
    "\x7b\"type\": "
      ++ (match p.type with
          | none => "null"
          | some t => jsonStr (periodTypeName t))
      ++ ", \"from_date\": " ++ jsonOptStr p.from_date
      ++ ", \"to_date\": " ++ jsonOptStr p.to_date ++ "\x7d"

/-- `intent.json()`: the pydantic serialization of the intent used in
the prompt. -/
def intentJsonStr (i : IntentDto) : String :=
  "\x7b\"intent\": " ++ jsonStr (intentName i.intent)
    ++ ", \"employee_scope\": "
    ++ (match i.employee_scope with
        | none => "null"
        | some s => jsonStr (scopeName s))
    ++ ", \"target_employee_name\": " ++ jsonOptStr i.target_employee_name
    ++ ", \"date\": " ++ jsonOptStr i.date
    ++ ", \"period\": " ++ jsonOptPeriod i.period ++ "\x7d"

/-- The per-intent instruction fragment (`intent_guidance`) of
`build_natural_response`; the `else` branch of the source is the
`UNKNOWN` arm, the tags being exhausted. -/
def intentGuidance : IntentTag → String
  | IntentTag.GET_EMPLOYEE_BANK_HOURS =>
    "\nSe a intenção for GET_EMPLOYEE_BANK_HOURS:\n- Some ou interprete o campo de saldo total (ex.: SaldoMinutos ou SomaEntradaSaida).\n- Responda algo como: \"Você tem X horas acumuladas no seu banco de horas.\"\n- Se não houver dados, diga que não foi encontrado saldo para essa pessoa.\n"
  | IntentTag.GET_NEXT_VACATION_PERIOD =>
    "\nSe a intenção for GET_NEXT_VACATION_PERIOD:\n- Use DataInicio e DataFim para montar a próxima janela de férias.\n- Exemplo: \"Suas próximas férias serão de DD/MM/AAAA a DD/MM/AAAA.\"\n- Se a lista estiver vazia, diga que não há férias registradas ou aprovadas.\n"
  | IntentTag.GET_ABSENT_EMPLOYEES =>
    "\nSe a intenção for GET_ABSENT_EMPLOYEES:\n- Liste funcionários retornados no resultado.\n- Exemplo: \"Hoje faltaram: João, Maria...\"\n- Se estiver vazio: \"Hoje não há registros de ausência.\"\n"
  | IntentTag.GET_EMPLOYEE_TODAY_SCHEDULE =>
    "\nSe a intenção for GET_EMPLOYEE_TODAY_SCHEDULE:\n- Cada linha contém: Jornada, HorarioInicio, HorarioFim, IntervaloInicio, IntervaloFim.\n- Converta horários no formato amigável HH:MM.\n- Monte uma frase clara:\n  - \"Sua jornada hoje é das HH:MM às HH:MM, com intervalo das HH:MM às HH:MM.\"\n- Se não houver registros, responda:\n  - \"Hoje você não possui jornada de trabalho definida.\"\n"
  | IntentTag.UNKNOWN =>
    "\nSe a intenção for desconhecida, gere uma resposta genérica dizendo que a consulta não é suportada.\n"

/-- The prompt assembled by `build_natural_response`: question, intent
name, intent JSON, the serialized raw result, the per-intent guidance,
and the general rules. -/
def naturalPrompt (question : String) (intent : IntentDto) (raw : RawResult) : String :=
  "\nPergunta do usuário: \"" ++ question
    ++ "\"\n\nIntent: " ++ intentName intent.intent
    ++ "\nIntent JSON: " ++ intentJsonStr intent
    ++ "\n\nResultado bruto da consulta (JSON):\n" ++ dumpRawResult raw
    ++ "\n\nINSTRUÇÕES ESPECÍFICAS:\n" ++ intentGuidance intent.intent
    ++ "\n\nRegras gerais:\n- Escreva sempre uma resposta curta e natural em português do Brasil.\n- Não inclua SQL.\n- Se não houver dados, explique de forma simples e humana.\n- Não use termos técnicos do banco.\n"

/-- `build_natural_response(question, intent, raw_result)` from
`src/api.py`: build the per-intent prompt around the serialized raw
result, invoke the rendering oracle (`llm_natural.invoke(prompt).content`
is the external collaborator `render`), and `.strip()` its output. -/
def build_natural_response (render : String → String) (question : String)
    (intent : IntentDto) (raw_result : RawResult) : String :=
  strip (render (naturalPrompt question intent raw_result))

/-- `pessoa_id = validate_guid(request.user_id) if request.user_id else None`. -/
def chatPessoaId (db : Db) (uid : Option String) : Except HttpError (Option String) :=
  if truthy uid then validate_guid db uid
  else Except.ok none

/-- The `AuthenticatedUser` built by `chat` (Python `or` defaults are
truthiness-based). -/
def chatUser (pid : Option String) (req : QuestionRequest) : AuthenticatedUser :=
  { pessoa_id := pid
    name := if truthy req.name then req.name.getD "" else "Usuário Teste"
    role := if truthy req.role then req.role.getD "" else UserRole.EMPLOYEE }

/-- The `POST /chat` pipeline: validate the caller id, build the user,
reject an empty question, classify, execute, then render the raw result
through `build_natural_response`.  The classifier oracle's raw output
(`classifyOut`), the JSON parser, and the rendering oracle (`render`)
are the external collaborators. -/
def chat (db : Db) (parse : String → Except String Json) (classifyOut : String)
    (render : String → String) (req : QuestionRequest) :
    Except HttpError ChatResponse × List String :=
  match chatPessoaId db req.user_id with
  | Except.error e => (Except.error e, [])
  | Except.ok pid =>
    if strip req.question = "" then
      (Except.error ⟨400, "Pergunta vazia."⟩, [])
    else
      match execute_intent db (classify_intent parse classifyOut) (chatUser pid req) with
      | (Except.error e, log) => (Except.error e, log)
      | (Except.ok raw, log) =>
        (Except.ok { intent := (classify_intent parse classifyOut).intent,
                     params := classify_intent parse classifyOut,
                     raw_result := raw,
                     natural_response :=
                       build_natural_response render (strip req.question)
                         (classify_intent parse classifyOut) raw }, log)

-- ============================================
-- Concrete fixtures for witnesses
-- ============================================

/-- A JSON parse oracle agreeing with Python's `json.loads` at the one
input used in the C8 counterexample: the text
`\x7b"intent": "UNKNOWN", "employee_scope": "SELF"\x7d` denotes exactly
that two-field object. -/
def parseStubUnknownPayload : String → Except String Json := fun s =>
  if s = "\x7b\"intent\": \"UNKNOWN\", \"employee_scope\": \"SELF\"\x7d" then
    Except.ok (Json.obj [("intent", Json.str "UNKNOWN"), ("employee_scope", Json.str "SELF")])
  else
    Except.error "invalid JSON"

/-- A well-formed person identifier for the concrete store. -/
def witGuid : String := "11111111-1111-1111-1111-111111111111"

/-- Bank row with the older record date. -/
def witRowA : BankRow :=
  ⟨witGuid, "Ana", 10, 5, 7, some 20, some "CREDITO", some 2, none⟩

/-- Bank row with the newer record date. -/
def witRowB : BankRow :=
  ⟨witGuid, "Ana", 10, 3, 9, some 30, none, none, none⟩

/-- Bank row belonging to a different person. -/
def witRowC : BankRow :=
  ⟨"other", "Bob", 1, 1, 1, some 99, none, none, none⟩

/-- Future vacation period starting later. -/
def witFerA : FeriasRow := ⟨witGuid, "Ana", 50, 60, 10, "APROVADA", false, none, none⟩

/-- Future vacation period starting sooner (the expected `TOP 1`). -/
def witFerB : FeriasRow := ⟨witGuid, "Ana", 40, 45, 5, "APROVADA", false, none, none⟩

/-- Past vacation period (filtered out: starts before today). -/
def witFerC : FeriasRow := ⟨witGuid, "Ana", 10, 15, 5, "GOZADA", false, none, none⟩

/-- A concrete store/environment for the witnesses: one known person,
three bank rows, three vacation periods, empty opaque query results,
today = day 30 falling on weekday 2, and a GUID validator accepting
exactly `witGuid`. -/
def witDb : Db where
  pessoas := [⟨witGuid, "Ana"⟩]
  bancoRows := [witRowA, witRowB, witRowC]
  feriasRows := [witFerA, witFerB, witFerC]
  runAbsent := fun _ => []
  runSchedule := fun _ => []
  today := 30
  todayWeekday := 2
  guidOk := fun s => s == witGuid

/-- Parse oracle for the chat witness: every text denotes the JSON
object tagging the today-schedule intent. -/
def witParseToday : String → Except String Json := fun _ =>
  Except.ok (Json.obj [("intent", Json.str "GET_EMPLOYEE_TODAY_SCHEDULE")])

/-- Request body for the chat witness. -/
def witReq : QuestionRequest :=
  { question := "qual minha jornada de trabalho pra hoje?",
    user_id := some witGuid, role := some "EMPLOYEE", name := some "Ana" }

/-- The chat response expected for `witReq` against `witDb`. -/
def witResp : ChatResponse :=
  { intent := IntentTag.GET_EMPLOYEE_TODAY_SCHEDULE,
    params := { intent := IntentTag.GET_EMPLOYEE_TODAY_SCHEDULE },
    raw_result := RawResult.scheduleResult (todaySql witGuid 2) [],
    natural_response := "ok" }

/-- Fixed text of the absence query before the first embedded date. -/
def absentSqlPre : String :=
  "\n        SELECT\n            p.[Id]          AS PessoaId,\n            p.[Nome],\n            p.[Matricula],\n            vt.[DataAdmissao],\n            vt.[DataDesligamento]\n        FROM [dbo].[Pessoa] p\n        JOIN [dbo].[VinculoTrabalho] vt\n            ON vt.[PessoaId] = p.[Id]\n        WHERE\n            (vt.[Ativo] = 1 OR vt.[Ativo] IS NULL)\n            AND (vt.[DataDesligamento] IS NULL OR CONVERT(date, vt.[DataDesligamento]) >= "
    ++ "CONVERT(date, '"

/-- Fixed text of the absence query between its two embedded dates. -/
def absentSqlMid : String :=
  "')"
    ++ ")\n            AND NOT EXISTS (\n                SELECT 1\n                FROM [dbo].[SomaHorasPeriodo] shp\n                WHERE shp.[PessoaId] = p.[Id]\n                  AND CONVERT(date, shp.[DataHoraRegistro]) = "
    ++ "CONVERT(date, '"

/-- Fixed text of the absence query after the second embedded date. -/
def absentSqlPost : String :=
  "')" ++ "\n            );\n    "

/-- Fixed text of the lookup query before the escaped name. -/
def lookupSqlPre : String :=
  "\n        SELECT TOP 1 [Id]\n        FROM [dbo].[Pessoa]\n        WHERE [Nome] = '"

/-- Fixed text of the lookup query after the escaped name. -/
def lookupSqlPost : String := "'\n    "

-- ============================================
-- Claims
-- ============================================

/-- C1: `ensure_authorization` implements the role/scope table for the
three data-query intents.  For `GET_EMPLOYEE_BANK_HOURS` and
`GET_NEXT_VACATION_PERIOD` an `EMPLOYEE` is denied with a 403 unless
`employee_scope = SELF`, while `RH_ADMIN` (the spec's HR_ADMIN) and
`MANAGER` are allowed for every scope; for `GET_ABSENT_EMPLOYEES` the
verdict is allow exactly when the role is `RH_ADMIN` or `MANAGER`, and
an `EMPLOYEE` is always denied with a 403. -/
theorem authorize_role_scope_table (u : AuthenticatedUser) (i : IntentDto) :
    ((i.intent = IntentTag.GET_EMPLOYEE_BANK_HOURS ∨
        i.intent = IntentTag.GET_NEXT_VACATION_PERIOD) →
      ((u.role = UserRole.EMPLOYEE ∧ i.employee_scope ≠ some Scope.SELF →
          ∃ d, ensure_authorization u i = Except.error ⟨403, d⟩) ∧
        (u.role = UserRole.EMPLOYEE ∧ i.employee_scope = some Scope.SELF →
          ensure_authorization u i = Except.ok ()) ∧
        (u.role = UserRole.RH_ADMIN ∨ u.role = UserRole.MANAGER →
          ensure_authorization u i = Except.ok ()))) ∧
    (i.intent = IntentTag.GET_ABSENT_EMPLOYEES →
      ((ensure_authorization u i = Except.ok () ↔
          (u.role = UserRole.RH_ADMIN ∨ u.role = UserRole.MANAGER)) ∧
        (u.role = UserRole.EMPLOYEE →
          ∃ d, ensure_authorization u i = Except.error ⟨403, d⟩))) := by
  constructor
  · rintro (htag | htag)
    · refine ⟨fun ⟨hr, hs⟩ =>
        ⟨"Você só pode consultar o seu próprio banco de horas.", ?_⟩,
        fun ⟨hr, hs⟩ => ?_, fun hr => ?_⟩
      · simp [ensure_authorization, htag, hr, hs]
      · simp [ensure_authorization, htag, hr, hs]
      · rcases hr with hr | hr <;>
          simp [ensure_authorization, htag, hr, UserRole.RH_ADMIN,
            UserRole.MANAGER, UserRole.EMPLOYEE]
    · refine ⟨fun ⟨hr, hs⟩ =>
        ⟨"Você só pode consultar as suas próprias férias.", ?_⟩,
        fun ⟨hr, hs⟩ => ?_, fun hr => ?_⟩
      · simp [ensure_authorization, htag, hr, hs]
      · simp [ensure_authorization, htag, hr, hs]
      · rcases hr with hr | hr <;>
          simp [ensure_authorization, htag, hr, UserRole.RH_ADMIN,
            UserRole.MANAGER, UserRole.EMPLOYEE]
  · intro htag
    constructor
    · constructor
      · intro hok
        by_contra hnot
        push_neg at hnot
        simp [ensure_authorization, htag, hnot.1, hnot.2] at hok
      · rintro (hr | hr) <;> simp [ensure_authorization, htag, hr,
          UserRole.RH_ADMIN, UserRole.MANAGER]
    · intro hr
      refine ⟨"Você não tem permissão para consultar faltas de funcionários.", ?_⟩
      simp [ensure_authorization, htag, hr, UserRole.RH_ADMIN,
        UserRole.MANAGER, UserRole.EMPLOYEE]

/-- Witness for C1 at concrete inputs: an `EMPLOYEE` asking for another
scope's bank hours is denied 403, and an `RH_ADMIN` may list absent
employees. -/
theorem authorize_role_scope_table_witness :
    (∃ d, ensure_authorization ⟨none, "T", "EMPLOYEE"⟩
        { intent := IntentTag.GET_EMPLOYEE_BANK_HOURS, employee_scope := some Scope.ALL } =
          Except.error ⟨403, d⟩) ∧
    ensure_authorization ⟨none, "T", "RH_ADMIN"⟩
        { intent := IntentTag.GET_ABSENT_EMPLOYEES } = Except.ok () := by
  constructor
  · exact ((authorize_role_scope_table ⟨none, "T", "EMPLOYEE"⟩ _).1 (Or.inl rfl)).1
      ⟨rfl, by decide⟩
  · exact ((authorize_role_scope_table ⟨none, "T", "RH_ADMIN"⟩ _).2 rfl).1.mpr (Or.inl rfl)

/-- C4: for every user (any role, any payload) the `UNKNOWN` intent is
denied by `ensure_authorization` with the 400 "not understood" reason,
and `execute_intent` surfaces exactly that error with an empty query
log — no handler runs and no query executes. -/
theorem unknown_intent_always_denied (db : Db) (u : AuthenticatedUser)
    (scope : Option Scope) (name date : Option String) (period : Option Period) :
    ensure_authorization u ⟨IntentTag.UNKNOWN, scope, name, date, period⟩ =
      Except.error ⟨400, "Não entendi sua pergunta ou ela ainda não é suportada."⟩ ∧
    execute_intent db ⟨IntentTag.UNKNOWN, scope, name, date, period⟩ u =
      (Except.error ⟨400, "Não entendi sua pergunta ou ela ainda não é suportada."⟩, []) := by
  constructor
  · simp [ensure_authorization]
  · simp [execute_intent, ensure_authorization]

/-- C2: for every oracle output, if `json.loads` fails, or the parsed
JSON fails validation against the `IntentDto` schema (which includes a
tag outside the known literals), `classify_intent` deterministically
returns `IntentDto(intent="UNKNOWN")` — whose payload fields are all
`None` — and, being a total function, lets no exception cross its
boundary. -/
theorem classify_decode_failure_yields_unknown
    (parse : String → Except String Json) (content : String)
    (hfail : (∃ e, parse content = Except.error e) ∨
      (∃ j e, parse content = Except.ok j ∧ validateIntentDto j = Except.error e)) :
    classify_intent parse content = unknownIntentDto ∧
    unknownIntentDto.intent = IntentTag.UNKNOWN ∧
    unknownIntentDto.employee_scope = none ∧
    unknownIntentDto.target_employee_name = none ∧
    unknownIntentDto.date = none ∧
    unknownIntentDto.period = none := by
  refine ⟨?_, rfl, rfl, rfl, rfl, rfl⟩
  rcases hfail with ⟨e, he⟩ | ⟨j, e, hj, he⟩
  · simp [classify_intent, decodeIntent, he]
  · simp [classify_intent, decodeIntent, hj, he]

/-- Witness for C2: a parse oracle that rejects its input makes
`classify_intent` return the bare `UNKNOWN` intent. -/
theorem classify_decode_failure_yields_unknown_witness :
    ((∃ e, (fun (_ : String) => (Except.error "invalid JSON" : Except String Json)) "oops" =
        Except.error e) ∨
      (∃ j e, (fun (_ : String) => (Except.error "invalid JSON" : Except String Json)) "oops" =
        Except.ok j ∧ validateIntentDto j = Except.error e)) ∧
    classify_intent (fun _ => Except.error "invalid JSON") "oops" = unknownIntentDto := by
  refine ⟨Or.inl ⟨"invalid JSON", rfl⟩, ?_⟩
  exact (classify_decode_failure_yields_unknown (fun _ => Except.error "invalid JSON") "oops"
    (Or.inl ⟨"invalid JSON", rfl⟩)).1

/-- C8 counterexample: an oracle output that is valid JSON with tag
`"UNKNOWN"` and a scope field passes pydantic validation unchanged, so
`classify_intent` produces an `UNKNOWN` intent that *does* carry a
payload (`employee_scope = SELF`). -/
theorem classify_unknown_payload_counterexample :
    (classify_intent parseStubUnknownPayload
        "\x7b\"intent\": \"UNKNOWN\", \"employee_scope\": \"SELF\"\x7d").intent =
      IntentTag.UNKNOWN ∧
    (classify_intent parseStubUnknownPayload
        "\x7b\"intent\": \"UNKNOWN\", \"employee_scope\": \"SELF\"\x7d").employee_scope =
      some Scope.SELF := by
  decide

/-- C8 amended: the no-payload guarantee holds exactly for the `UNKNOWN`
intent substituted on decode failure; a successfully decoded intent is
returned verbatim by `classify_intent`, so a valid oracle output with
tag `"UNKNOWN"` may carry payload fields. -/
theorem classify_unknown_payload_amended
    (parse : String → Except String Json) (content : String) :
    (∀ e, decodeIntent parse content = Except.error e →
      classify_intent parse content = unknownIntentDto ∧
      unknownIntentDto.employee_scope = none ∧
      unknownIntentDto.target_employee_name = none ∧
      unknownIntentDto.date = none ∧
      unknownIntentDto.period = none) ∧
    (∀ i, decodeIntent parse content = Except.ok i →
      classify_intent parse content = i) := by
  constructor
  · intro e he
    exact ⟨by simp [classify_intent, he], rfl, rfl, rfl, rfl⟩
  · intro i hi
    simp [classify_intent, hi]

/-- Witness for the amended C8 at the two concrete decode outcomes. -/
theorem classify_unknown_payload_amended_witness :
    classify_intent (fun _ => Except.error "bad") "x" = unknownIntentDto ∧
    classify_intent parseStubUnknownPayload
        "\x7b\"intent\": \"UNKNOWN\", \"employee_scope\": \"SELF\"\x7d" =
      { intent := IntentTag.UNKNOWN, employee_scope := some Scope.SELF } := by
  constructor
  · exact ((classify_unknown_payload_amended (fun _ => Except.error "bad") "x").1 "bad"
      (by rfl)).1
  · exact (classify_unknown_payload_amended parseStubUnknownPayload
      "\x7b\"intent\": \"UNKNOWN\", \"employee_scope\": \"SELF\"\x7d").2
      { intent := IntentTag.UNKNOWN, employee_scope := some Scope.SELF } (by rfl)

/-- C3: authorization of `GET_EMPLOYEE_TODAY_SCHEDULE` is role-independent
(`ensure_authorization` allows every user), but the request requires a
resolved subject identifier: without a truthy `pessoa_id` the pipeline
fails with a 400 and an empty query log (the schedule query never
executes), while any caller with an identifier is allowed and the
query runs. -/
theorem today_schedule_requires_identifier (db : Db) (u : AuthenticatedUser)
    (i : IntentDto) (htag : i.intent = IntentTag.GET_EMPLOYEE_TODAY_SCHEDULE) :
    ensure_authorization u i = Except.ok () ∧
    (truthy u.pessoa_id = false →
      execute_intent db i u =
        (Except.error ⟨400, "Usuário autenticado não possui PessoaId associado."⟩, [])) ∧
    (∀ pid, u.pessoa_id = some pid → pid ≠ "" →
      execute_intent db i u =
        (Except.ok (RawResult.scheduleResult (todaySql pid db.todayWeekday)
            (db.runSchedule (todaySql pid db.todayWeekday))),
          [todaySql pid db.todayWeekday])) := by
  refine ⟨?_, ?_, ?_⟩
  · simp [ensure_authorization, htag]
  · intro h
    simp [execute_intent, ensure_authorization, htag,
      handle_get_employee_today_schedule, h]
  · intro pid hpid hne
    have hempty : pid.isEmpty = false := by
      cases hp : pid.isEmpty
      · rfl
      · exact absurd ((String.isEmpty_iff pid).mp hp) hne
    simp [execute_intent, ensure_authorization, htag,
      handle_get_employee_today_schedule, truthy, hpid, hempty]

/-- Witness for C3: with the concrete store, a caller without a
`pessoa_id` gets the 400 with no query executed, and a caller with one
gets the schedule result. -/
theorem today_schedule_requires_identifier_witness :
    ensure_authorization ⟨some witGuid, "Ana", "EMPLOYEE"⟩
        { intent := IntentTag.GET_EMPLOYEE_TODAY_SCHEDULE } = Except.ok () ∧
    execute_intent witDb { intent := IntentTag.GET_EMPLOYEE_TODAY_SCHEDULE }
        ⟨none, "Ana", "EMPLOYEE"⟩ =
      (Except.error ⟨400, "Usuário autenticado não possui PessoaId associado."⟩, []) ∧
    execute_intent witDb { intent := IntentTag.GET_EMPLOYEE_TODAY_SCHEDULE }
        ⟨some witGuid, "Ana", "EMPLOYEE"⟩ =
      (Except.ok (RawResult.scheduleResult (todaySql witGuid 2)
          (witDb.runSchedule (todaySql witGuid 2))), [todaySql witGuid 2]) := by
  refine ⟨(today_schedule_requires_identifier witDb ⟨some witGuid, "Ana", "EMPLOYEE"⟩ _ rfl).1,
    (today_schedule_requires_identifier witDb ⟨none, "Ana", "EMPLOYEE"⟩ _ rfl).2.1 rfl, ?_⟩
  exact (today_schedule_requires_identifier witDb ⟨some witGuid, "Ana", "EMPLOYEE"⟩ _ rfl).2.2
    witGuid rfl (by decide)

/-- C5: subject resolution of `handle_get_employee_bank_hours`.
`SELF` without a caller identifier fails 400 (MissingIdentifier) with no
query executed; `ONE` with a name performs exactly one exact-match
lookup (`[Nome] = nome`, string equality) and fails 404 (NotFound) when
no person matches, the bank query never running for that subject; any
other scope/payload combination fails 400 (InvalidScope) with no query;
and the three error values are pairwise distinct (MissingIdentifier and
InvalidScope share the 400 class but carry distinct details, NotFound
is 404). -/
theorem bank_hours_failure_modes (db : Db) (i : IntentDto) (u : AuthenticatedUser)
    (htag : i.intent = IntentTag.GET_EMPLOYEE_BANK_HOURS) :
    (i.employee_scope = some Scope.SELF → truthy u.pessoa_id = false →
      handle_get_employee_bank_hours db i u =
        (Except.error ⟨400, "user_id (pessoa_id) é obrigatório para SELF."⟩, [])) ∧
    (∀ nome, i.employee_scope = some Scope.ONE → i.target_employee_name = some nome →
      nome ≠ "" →
      ((∀ p ∈ db.pessoas, p.nome ≠ nome) →
        handle_get_employee_bank_hours db i u =
          (Except.error ⟨404, "Pessoa não encontrada."⟩, [lookupSql nome])) ∧
      (∀ p, db.pessoas.find? (fun q => q.nome == nome) = some p →
        p.nome = nome ∧
        handle_get_employee_bank_hours db i u =
          ((bankQueryStep db p.id).1, lookupSql nome :: (bankQueryStep db p.id).2))) ∧
    (i.employee_scope ≠ some Scope.SELF →
      ¬(i.employee_scope = some Scope.ONE ∧ truthy i.target_employee_name = true) →
      handle_get_employee_bank_hours db i u =
        (Except.error ⟨400, "Escopo de funcionário inválido para banco de horas."⟩, [])) ∧
    ((⟨400, "user_id (pessoa_id) é obrigatório para SELF."⟩ : HttpError) ≠
        ⟨404, "Pessoa não encontrada."⟩ ∧
      (⟨400, "user_id (pessoa_id) é obrigatório para SELF."⟩ : HttpError) ≠
        ⟨400, "Escopo de funcionário inválido para banco de horas."⟩ ∧
      (⟨404, "Pessoa não encontrada."⟩ : HttpError) ≠
        ⟨400, "Escopo de funcionário inválido para banco de horas."⟩) := by
  refine ⟨?_, ?_, ?_, by decide⟩
  · intro hscope hfalse
    simp [handle_get_employee_bank_hours, hscope, hfalse]
  · intro nome hscope hname hne
    have hempty : nome.isEmpty = false := by
      cases hp : nome.isEmpty
      · rfl
      · exact absurd ((String.isEmpty_iff nome).mp hp) hne
    constructor
    · intro hnone
      have hfind : db.pessoas.find? (fun q => q.nome == nome) = none := by
        rw [List.find?_eq_none]
        intro p hp
        simp [beq_iff_eq]
        exact hnone p hp
      simp [handle_get_employee_bank_hours, hscope, hname, truthy, hempty,
        lookup_pessoa_id_by_name, hfind]
    · intro p hfind
      refine ⟨by simpa [beq_iff_eq] using List.find?_some hfind, ?_⟩
      simp [handle_get_employee_bank_hours, hscope, hname, truthy, hempty,
        lookup_pessoa_id_by_name, hfind]
  · intro h1 h2
    simp only [handle_get_employee_bank_hours, if_neg h1]
    rw [if_neg]
    intro hc
    exact h2 ⟨hc.1, hc.2⟩

/-- Witness for C5: the three failure modes on the concrete store. -/
theorem bank_hours_failure_modes_witness :
    handle_get_employee_bank_hours witDb
        { intent := IntentTag.GET_EMPLOYEE_BANK_HOURS, employee_scope := some Scope.SELF }
        ⟨none, "Ana", "EMPLOYEE"⟩ =
      (Except.error ⟨400, "user_id (pessoa_id) é obrigatório para SELF."⟩, []) ∧
    handle_get_employee_bank_hours witDb
        { intent := IntentTag.GET_EMPLOYEE_BANK_HOURS, employee_scope := some Scope.ONE,
          target_employee_name := some "Zeca" }
        ⟨none, "Ana", "RH_ADMIN"⟩ =
      (Except.error ⟨404, "Pessoa não encontrada."⟩, [lookupSql "Zeca"]) ∧
    handle_get_employee_bank_hours witDb
        { intent := IntentTag.GET_EMPLOYEE_BANK_HOURS, employee_scope := some Scope.ALL }
        ⟨none, "Ana", "RH_ADMIN"⟩ =
      (Except.error ⟨400, "Escopo de funcionário inválido para banco de horas."⟩, []) := by
  refine ⟨(bank_hours_failure_modes witDb _ _ rfl).1 rfl rfl, ?_, ?_⟩
  · exact ((bank_hours_failure_modes witDb _ _ rfl).2.1 "Zeca" rfl rfl (by decide)).1
      (by decide)
  · exact (bank_hours_failure_modes witDb _ _ rfl).2.2.1 (by decide) (by decide)

/-- If the validated bank query step succeeds, its payload is the sorted
bank query result for that subject. -/
theorem bankQueryStep_fst_ok (db : Db) (pid : String) (res : RawResult)
    (h : (bankQueryStep db pid).1 = Except.ok res) :
    res = RawResult.bankRows (bankQueryRows db pid) := by
  unfold bankQueryStep validate_guid at h
  by_cases hg : db.guidOk pid = true
  · simp [hg] at h
    exact h.symm
  · simp [hg] at h

/-- Every successful run of the bank-of-hours handler returns the sorted
query result of some resolved subject. -/
theorem bank_handler_ok_shape (db : Db) (i : IntentDto) (u : AuthenticatedUser)
    (res : RawResult) (log : List String)
    (h : handle_get_employee_bank_hours db i u = (Except.ok res, log)) :
    ∃ pid, res = RawResult.bankRows (bankQueryRows db pid) := by
  unfold handle_get_employee_bank_hours at h
  split at h
  · split at h
    · exact ⟨_, bankQueryStep_fst_ok db _ res (by rw [h])⟩
    · simp at h
  · split at h
    · split at h
      · rename_i pid log1 heq
        refine ⟨pid, bankQueryStep_fst_ok db pid res ?_⟩
        have := congrArg Prod.fst h
        simpa using this
      · simp at h
    · simp at h

/-- C6: for every successful bank-of-hours execution the returned row
sequence is ordered by record date descending (SQL `DESC`, `NULL` last),
then last-updated descending, then created-date descending — i.e. it is
pairwise sorted by the `ORDER BY` relation `bankBefore`. -/
theorem bank_hours_result_ordered (db : Db) (i : IntentDto) (u : AuthenticatedUser)
    (res : RawResult) (log : List String)
    (h : handle_get_employee_bank_hours db i u = (Except.ok res, log)) :
    ∃ rows, res = RawResult.bankRows rows ∧ List.Pairwise bankBefore rows := by
  obtain ⟨pid, rfl⟩ := bank_handler_ok_shape db i u res log h
  exact ⟨_, rfl, List.sorted_insertionSort bankBefore _⟩

/-- Witness for C6: on the concrete store the handler returns the two
rows of the subject, newest record date first, and they are pairwise
ordered. -/
theorem bank_hours_result_ordered_witness :
    handle_get_employee_bank_hours witDb
        { intent := IntentTag.GET_EMPLOYEE_BANK_HOURS, employee_scope := some Scope.SELF }
        ⟨some witGuid, "Ana", "EMPLOYEE"⟩ =
      (Except.ok (RawResult.bankRows [witRowB, witRowA]), [bankSql witGuid]) ∧
    ∃ rows, RawResult.bankRows [witRowB, witRowA] = RawResult.bankRows rows ∧
      List.Pairwise bankBefore rows := by
  have h : handle_get_employee_bank_hours witDb
      { intent := IntentTag.GET_EMPLOYEE_BANK_HOURS, employee_scope := some Scope.SELF }
      ⟨some witGuid, "Ana", "EMPLOYEE"⟩ =
      (Except.ok (RawResult.bankRows [witRowB, witRowA]), [bankSql witGuid]) := by
    rfl
  exact ⟨h, bank_hours_result_ordered witDb _ _ _ _ h⟩

/-- If the validated vacation query step succeeds, its payload is the
`TOP 1` query result for that subject. -/
theorem vacationQueryStep_fst_ok (db : Db) (pid : String) (res : RawResult)
    (h : (vacationQueryStep db pid).1 = Except.ok res) :
    res = RawResult.feriasRows (vacationQueryRows db pid) := by
  unfold vacationQueryStep validate_guid at h
  by_cases hg : db.guidOk pid = true
  · simp [hg] at h
    exact h.symm
  · simp [hg] at h

/-- Every successful run of the next-vacation handler returns the
`TOP 1` query result of some resolved subject. -/
theorem vacation_handler_ok_shape (db : Db) (i : IntentDto) (u : AuthenticatedUser)
    (res : RawResult) (log : List String)
    (h : handle_get_next_vacation_period db i u = (Except.ok res, log)) :
    ∃ pid, res = RawResult.feriasRows (vacationQueryRows db pid) := by
  unfold handle_get_next_vacation_period at h
  split at h
  · split at h
    · exact ⟨_, vacationQueryStep_fst_ok db _ res (by rw [h])⟩
    · simp at h
  · split at h
    · split at h
      · rename_i pid log1 heq
        refine ⟨pid, vacationQueryStep_fst_ok db pid res ?_⟩
        have := congrArg Prod.fst h
        simpa using this
      · simp at h
    · simp at h

/-- The `TOP 1` result has at most one row. -/
theorem vacationQueryRows_length_le (db : Db) (pid : String) :
    (vacationQueryRows db pid).length ≤ 1 := by
  unfold vacationQueryRows
  rw [List.length_take]
  exact min_le_left _ _

/-- A row of the `TOP 1` result is a candidate (the subject's periods
starting today or later) with minimal start date among the candidates. -/
theorem vacationQueryRows_mem (db : Db) (pid : String) (r : FeriasRow)
    (hr : r ∈ vacationQueryRows db pid) :
    r ∈ vacationCandidates db pid ∧
      ∀ f ∈ vacationCandidates db pid, r.dataInicio ≤ f.dataInicio := by
  have hperm := List.perm_insertionSort feriasBefore (vacationCandidates db pid)
  have hsort : List.Sorted feriasBefore
      (List.insertionSort feriasBefore (vacationCandidates db pid)) :=
    List.sorted_insertionSort feriasBefore _
  unfold vacationQueryRows at hr
  cases hs : List.insertionSort feriasBefore (vacationCandidates db pid) with
  | nil =>
    rw [hs] at hr
    simp at hr
  | cons a t =>
    rw [hs] at hr hperm hsort
    simp [List.take] at hr
    subst hr
    constructor
    · exact hperm.mem_iff.mp (List.mem_cons_self _ _)
    · intro f hf
      rcases List.mem_cons.mp (hperm.mem_iff.mpr hf) with h | h
      · subst h
        exact le_refl _
      · exact (List.pairwise_cons.mp hsort).1 f h

/-- Empty candidate set gives an empty `TOP 1` result. -/
theorem vacationQueryRows_nil (db : Db) (pid : String)
    (h : vacationCandidates db pid = []) : vacationQueryRows db pid = [] := by
  unfold vacationQueryRows
  rw [h]
  rfl

/-- C7: every successful next-vacation execution returns at most one
row; any returned row is one of the subject's vacation periods starting
today or later, with the minimal start date among them; an empty
candidate set yields an empty-but-successful result (second part: with a
resolved, well-formed subject the handler always succeeds, whatever the
candidate set — empty is a valid outcome, not an error). -/
theorem next_vacation_top1_min (db : Db) (i : IntentDto) (u : AuthenticatedUser) :
    (∀ res log, handle_get_next_vacation_period db i u = (Except.ok res, log) →
      ∃ pid rows, res = RawResult.feriasRows rows ∧ rows.length ≤ 1 ∧
        (∀ r ∈ rows, r ∈ vacationCandidates db pid ∧
          ∀ f ∈ vacationCandidates db pid, r.dataInicio ≤ f.dataInicio) ∧
        (vacationCandidates db pid = [] → rows = [])) ∧
    (∀ pid, i.employee_scope = some Scope.SELF → u.pessoa_id = some pid → pid ≠ "" →
      db.guidOk pid = true →
      handle_get_next_vacation_period db i u =
        (Except.ok (RawResult.feriasRows (vacationQueryRows db pid)),
          [nextVacationSql pid])) := by
  constructor
  · intro res log h
    obtain ⟨pid, rfl⟩ := vacation_handler_ok_shape db i u res log h
    exact ⟨pid, vacationQueryRows db pid, rfl, vacationQueryRows_length_le db pid,
      fun r hr => vacationQueryRows_mem db pid r hr,
      fun hnil => vacationQueryRows_nil db pid hnil⟩
  · intro pid hscope hpid hne hg
    have hempty : pid.isEmpty = false := by
      cases hp : pid.isEmpty
      · rfl
      · exact absurd ((String.isEmpty_iff pid).mp hp) hne
    simp [handle_get_next_vacation_period, hscope, truthy, hpid, hempty,
      vacationQueryStep, validate_guid, hg]

/-- Witness for C7: on the concrete store the `SELF` query succeeds and
its single row is the sooner of the two future periods. -/
theorem next_vacation_top1_min_witness :
    handle_get_next_vacation_period witDb
        { intent := IntentTag.GET_NEXT_VACATION_PERIOD, employee_scope := some Scope.SELF }
        ⟨some witGuid, "Ana", "EMPLOYEE"⟩ =
      (Except.ok (RawResult.feriasRows (vacationQueryRows witDb witGuid)),
        [nextVacationSql witGuid]) ∧
    vacationQueryRows witDb witGuid = [witFerB] ∧
    (∃ pid rows, RawResult.feriasRows (vacationQueryRows witDb witGuid) =
        RawResult.feriasRows rows ∧ rows.length ≤ 1 ∧
        (∀ r ∈ rows, r ∈ vacationCandidates witDb pid ∧
          ∀ f ∈ vacationCandidates witDb pid, r.dataInicio ≤ f.dataInicio) ∧
        (vacationCandidates witDb pid = [] → rows = [])) := by
  have h2 := (next_vacation_top1_min witDb
      { intent := IntentTag.GET_NEXT_VACATION_PERIOD, employee_scope := some Scope.SELF }
      ⟨some witGuid, "Ana", "EMPLOYEE"⟩).2 witGuid rfl rfl (by decide) rfl
  exact ⟨h2, rfl, (next_vacation_top1_min witDb _ _).1 _ _ h2⟩

/-- C9: every successful run of the today-schedule handler returns the
dict `{"sql": ..., "rows": ...}` whose `sql` member is the full
generated query text; the other three handlers return bare row
sequences; `chat` places the handler's value verbatim in the response's
`raw_result` field and renders that very object via
`build_natural_response`; and the prompt handed to the rendering oracle
embeds the serialized object — for the today-schedule dict with its
`sql` key first, so the (JSON-escaped) SQL text is passed to the
renderer. -/
theorem today_schedule_raw_result_shape (db : Db) :
    (∀ i u res log, handle_get_employee_today_schedule db i u = (Except.ok res, log) →
      ∃ pid, u.pessoa_id = some pid ∧
        res = RawResult.scheduleResult (todaySql pid db.todayWeekday)
          (db.runSchedule (todaySql pid db.todayWeekday))) ∧
    (∀ i u res log, handle_get_employee_bank_hours db i u = (Except.ok res, log) →
      ∃ rows, res = RawResult.bankRows rows) ∧
    (∀ i u res log, handle_get_next_vacation_period db i u = (Except.ok res, log) →
      ∃ rows, res = RawResult.feriasRows rows) ∧
    (∀ i u res log, handle_get_absent_employees db i u = (Except.ok res, log) →
      ∃ rows, res = RawResult.absentRows rows) ∧
    (∀ parse classifyOut render req resp log,
      chat db parse classifyOut render req = (Except.ok resp, log) →
      ∃ pid, chatPessoaId db req.user_id = Except.ok pid ∧
        (execute_intent db (classify_intent parse classifyOut) (chatUser pid req)).1 =
          Except.ok resp.raw_result ∧
        resp.natural_response =
          build_natural_response render (strip req.question)
            (classify_intent parse classifyOut) resp.raw_result) ∧
    (∀ (render : String → String) q i raw,
      build_natural_response render q i raw = strip (render (naturalPrompt q i raw))) ∧
    (∀ q (i : IntentDto) sql rows,
      naturalPrompt q i (RawResult.scheduleResult sql rows) =
        "\nPergunta do usuário: \"" ++ q
          ++ "\"\n\nIntent: " ++ intentName i.intent
          ++ "\nIntent JSON: " ++ intentJsonStr i
          ++ "\n\nResultado bruto da consulta (JSON):\n" ++ "\x7b\"sql\": "
          ++ jsonStr sql ++ ", \"rows\": " ++ dumpList dumpScheduleRow rows ++ "\x7d"
          ++ "\n\nINSTRUÇÕES ESPECÍFICAS:\n" ++ intentGuidance i.intent
          ++ "\n\nRegras gerais:\n- Escreva sempre uma resposta curta e natural em português do Brasil.\n- Não inclua SQL.\n- Se não houver dados, explique de forma simples e humana.\n- Não use termos técnicos do banco.\n") := by
  refine ⟨?_, ?_, ?_, ?_, ?_, fun render q i raw => rfl, ?_⟩
  · intro i u res log h
    unfold handle_get_employee_today_schedule at h
    split at h
    · rename_i hc
      cases hp : u.pessoa_id with
      | none => rw [hp] at hc; simp [truthy] at hc
      | some pid =>
        refine ⟨pid, rfl, ?_⟩
        rw [hp] at h
        simp only [Option.getD_some, Prod.mk.injEq, Except.ok.injEq] at h
        exact h.1.symm
    · simp at h
  · intro i u res log h
    obtain ⟨pid, rfl⟩ := bank_handler_ok_shape db i u res log h
    exact ⟨_, rfl⟩
  · intro i u res log h
    obtain ⟨pid, rfl⟩ := vacation_handler_ok_shape db i u res log h
    exact ⟨_, rfl⟩
  · intro i u res log h
    unfold handle_get_absent_employees at h
    simp only [Prod.mk.injEq, Except.ok.injEq] at h
    exact ⟨_, h.1.symm⟩
  · intro parse classifyOut render req resp log h
    unfold chat at h
    split at h
    · simp at h
    · rename_i pid hpid
      refine ⟨pid, hpid, ?_⟩
      split at h
      · simp at h
      · split at h
        · simp at h
        · rename_i raw lg heq
          simp only [Prod.mk.injEq, Except.ok.injEq] at h
          rw [heq, ← h.1]
          exact ⟨rfl, rfl⟩
  · intro q i sql rows
    simp only [naturalPrompt, dumpRawResult, String.append_assoc]

/-- Witness for C9: on the concrete store, the today-schedule handler
result carries its own SQL text and `chat` returns it verbatim. -/
theorem today_schedule_raw_result_shape_witness :
    (∃ pid, (⟨some witGuid, "Ana", "EMPLOYEE"⟩ : AuthenticatedUser).pessoa_id = some pid ∧
      RawResult.scheduleResult (todaySql witGuid 2) [] =
        RawResult.scheduleResult (todaySql pid witDb.todayWeekday)
          (witDb.runSchedule (todaySql pid witDb.todayWeekday))) ∧
    (∃ pid, chatPessoaId witDb witReq.user_id = Except.ok pid ∧
      (execute_intent witDb (classify_intent witParseToday "x") (chatUser pid witReq)).1 =
        Except.ok witResp.raw_result ∧
      witResp.natural_response =
        build_natural_response (fun _ => "ok") (strip witReq.question)
          (classify_intent witParseToday "x") witResp.raw_result) := by
  constructor
  · exact (today_schedule_raw_result_shape witDb).1
      { intent := IntentTag.GET_EMPLOYEE_TODAY_SCHEDULE }
      ⟨some witGuid, "Ana", "EMPLOYEE"⟩
      (RawResult.scheduleResult (todaySql witGuid 2) []) [todaySql witGuid 2] rfl
  · exact (today_schedule_raw_result_shape witDb).2.2.2.2.1 witParseToday "x" (fun _ => "ok")
      witReq witResp [todaySql witGuid 2] rfl

set_option maxRecDepth 4096 in
/-- C10 counterexample: at the concrete input `date = some ""` the date
field is present, yet the handler's truthiness test discards it — the
generated SQL equals the no-date variant (it uses `GETDATE()`) and the
empty date string is not embedded inside a quoted literal. -/
theorem absent_date_embedding_counterexample :
    absentSql (some "") ≠
      absentSqlPre ++ "" ++ absentSqlMid ++ "" ++ absentSqlPost ∧
    absentSql (some "") = absentSql none ∧
    dateSqlOf (some "") = "CONVERT(date, GETDATE())" := by
  refine ⟨by decide, rfl, rfl⟩


/-- C10 amended: for every *nonempty* date string, the absence query
embeds it verbatim — the identity transformation, no escaping and no
format validation — twice between fixed text chunks (in particular a
single quote inside the date is not doubled), whereas the name-lookup
query doubles every single quote of the name before embedding it. -/
theorem absent_date_embedding_amended (d : String) (hd : d ≠ "") :
    absentSql (some d) = absentSqlPre ++ d ++ absentSqlMid ++ d ++ absentSqlPost ∧
    (∀ n : String, lookupSql n = lookupSqlPre ++ escapeQuotes n ++ lookupSqlPost) ∧
    escapeQuotes "'" = "''" ∧
    escapeQuotes "d'Avila" = "d''Avila" := by
  refine ⟨?_, fun n => rfl, rfl, rfl⟩
  have hempty : d.isEmpty = false := by
    cases hp : d.isEmpty
    · rfl
    · exact absurd ((String.isEmpty_iff d).mp hp) hd
  have hds : dateSqlOf (some d) = "CONVERT(date, '" ++ d ++ "')" := by
    simp [dateSqlOf, truthy, hempty]
  unfold absentSql
  rw [hds]
  simp only [absentSqlPre, absentSqlMid, absentSqlPost, String.append_assoc]

/-- Witness for the amended C10: a malformed date containing a quote is
embedded unchanged. -/
theorem absent_date_embedding_amended_witness :
    absentSql (some "2024-13-99'x") =
      absentSqlPre ++ "2024-13-99'x" ++ absentSqlMid ++ "2024-13-99'x" ++ absentSqlPost := by
  exact (absent_date_embedding_amended "2024-13-99'x" (by decide)).1
